import Mathlib

/-!
# Verification of the Microburbs suburb-analysis service

Shallow embedding of `src/app.py`: the pure analyzer `analyze_property_data`
and the request handler `analyze_suburb`, together with theorems checking the
specification's claims about them.

Modelling conventions:
* JSON numbers are modelled as exact rationals (`ℚ`); Python float arithmetic
  is idealised as exact rational arithmetic.
* An optional JSON field that may also be `null` is `Option (Option α)`:
  `none` = key absent, `some none` = key present with `null`,
  `some (some a)` = key present with a value.
* Python's built-in `round` is round-half-to-even (`pythonRound` below);
  `int()` truncates toward zero (`ratTrunc`).
* `date.today()` is an explicit parameter `today`, a day number on the
  proleptic Gregorian calendar (days since 1970-01-01, the same scale as
  `dateToDays`), so `(today - listing_date).days` is plain subtraction.
* Network I/O is abstracted: the handler takes the outcome of the single
  `requests.get` + `raise_for_status` + `.json()` sequence as a value of
  `FetchOutcome`.
-/

/-- Python's built-in `round(x)`: round half to even, returning an integer. -/
def pythonRound (q : ℚ) : ℤ :=
  let f := ⌊q⌋
  let r := q - (f : ℚ)
  if r < 1/2 then f
  else if 1/2 < r then f + 1
  else if f % 2 = 0 then f else f + 1

/-- Python's `round(x, 1)`: round half to even at one decimal place. -/
def pythonRound1 (q : ℚ) : ℚ :=
  (pythonRound (q * 10) : ℚ) / 10

/-- Python's `int(x)` on a float/rational: truncation toward zero. -/
def ratTrunc (q : ℚ) : ℤ :=
  if 0 ≤ q then ⌊q⌋ else ⌈q⌉

/-- `clamp(x, lo, hi)` as written in the spec: `max lo (min hi x)`. -/
def clamp (x lo hi : ℚ) : ℚ := max lo (min hi x)

/-! ## Date parsing (`datetime.strptime(s, "%Y-%m-%d").date()`) -/

/-- Split a character list on the dash separator, like `s.split("-")`:
the empty list yields one empty group. -/
def splitDash : List Char → List (List Char)
  | [] => [[]]
  | c :: rest =>
    match splitDash rest with
    | [] => if c = '-' then [[], []] else [[c]]
    | g :: gs => if c = '-' then [] :: g :: gs else (c :: g) :: gs

/-- A nonempty group consisting only of ASCII digits. -/
def isDigits (cs : List Char) : Bool := !cs.isEmpty && cs.all (fun c => c.isDigit)

/-- Decimal value of a digit group. -/
def digitsToNat (cs : List Char) : ℕ :=
  cs.foldl (fun n c => n * 10 + (c.toNat - 48)) 0

/-- Gregorian leap-year test. -/
def isLeap (y : ℕ) : Bool := y % 4 == 0 && (y % 100 != 0 || y % 400 == 0)

/-- Number of days in month `m` of year `y`. -/
def daysInMonth (y m : ℕ) : ℕ :=
  if m = 2 then (if isLeap y then 29 else 28)
  else if m = 4 ∨ m = 6 ∨ m = 9 ∨ m = 11 then 30
  else 31

/-- Day number of the civil date `y-m-d` counted from 1970-01-01
(standard days-from-civil algorithm, valid for `y ≥ 1`). -/
def dateToDays (y m d : ℕ) : ℤ :=
  let yy : ℤ := (y : ℤ) - (if m ≤ 2 then 1 else 0)
  let era : ℤ := yy.fdiv 400
  let yoe : ℤ := yy - era * 400
  let mp : ℤ := ((m : ℤ) + 9) % 12
  let doy : ℤ := (153 * mp + 2).fdiv 5 + (d : ℤ) - 1
  let doe : ℤ := yoe * 365 + yoe.fdiv 4 - yoe.fdiv 100 + doy
  era * 146097 + doe - 719468

/-- `datetime.strptime(s, "%Y-%m-%d")`: three dash-separated digit groups —
a year of exactly 4 digits (CPython's `%Y` regex is `\d\d\d\d`), month and
day of 1 or 2 digits — forming a valid Gregorian date with `1 ≤ year`
(`datetime.MINYEAR`); returns its day number, `none` on any parse or range
failure (`ValueError`). Known deviations from CPython: the space-padded day
(`" 5"`) and non-ASCII decimal digits, both accepted by CPython, are
rejected here; both sides of every theorem below share this function, so
the stated equalities are unaffected. -/
def parseDate (s : String) : Option ℤ :=
  match splitDash s.toList with
  | [ys, ms, ds] =>
    if isDigits ys && ys.length = 4 && isDigits ms && ms.length ≤ 2
        && isDigits ds && ds.length ≤ 2 then
      let y := digitsToNat ys
      let m := digitsToNat ms
      let d := digitsToNat ds
      if 1 ≤ y ∧ 1 ≤ m ∧ m ≤ 12 ∧ 1 ≤ d ∧ d ≤ daysInMonth y m then
        some (dateToDays y m d)
      else none
    else none
  | _ => none

/-! ## Data model (§3 of the spec / the JSON shapes `app.py` reads) -/

/-- The `attributes` object of a listing record; only `bedrooms` is read. -/
structure Attrs where
  bedrooms : Option (Option ℚ)
deriving DecidableEq, Repr

/-- One element of the `results` array, restricted to the well-typed subset
of the spec's data model (§3): `price` and `attributes.bedrooms` absent,
`null` or numeric, `attributes` absent or an object. The JSON-level cases
outside this subset — a present `null` for `attributes`, a non-numeric
`price` or `bedrooms` — make the source raise (`AttributeError` at line 62,
`TypeError` at lines 36/63) and are modelled separately by `RecordJ` and
`analyze_property_dataJ` below. -/
structure ListingRecord where
  price : Option (Option ℚ)
  listing_date : Option String
  attributes : Option Attrs
deriving DecidableEq, Repr

/-- The parsed upstream JSON body; `results` may be absent (`none`, which
`data.get('results', [])` defaults to `[]`). A present `null` for `results`
is NOT modelled: it is not equivalent to an absent key — `len(properties)`
at line 26 would raise `TypeError` on it (surfacing as HTTP 500). No claim
covers that case. -/
structure ListingsPayload where
  results : Option (List ListingRecord)
deriving DecidableEq, Repr

/-! ## The analyzer (`analyze_property_data`, src/app.py lines 18-93) -/

/-- The contribution of one record to `sale_prices`: its `price` when the
key is present and not `null` (`p.get('price') is not None`). -/
def priceOf (p : ListingRecord) : Option ℚ :=
  match p.price with
  | some (some q) => some q
  | _ => none

/-- Line 35: `[p.get('price', 0) for p in properties if p.get('price') is not None]`. -/
def sale_prices (properties : List ListingRecord) : List ℚ :=
  properties.filterMap priceOf

/-- Line 36: `round(sum(sale_prices) / len(sale_prices) if sale_prices else 0)`. -/
def avg_price (properties : List ListingRecord) : ℤ :=
  pythonRound (if sale_prices properties = [] then 0
    else (sale_prices properties).sum / ((sale_prices properties).length : ℚ))

/-- Lines 44-51: the days-on-market contribution of one record: skip when
`listing_date` is absent or falsy (empty string), or when `strptime` raises;
otherwise `(today - listing_date).days`. -/
def domOf (today : ℤ) (p : ListingRecord) : Option ℤ :=
  match p.listing_date with
  | none => none
  | some s => if s = "" then none else (parseDate s).map (fun d => today - d)

/-- Lines 42-51: `dom_list`. -/
def dom_list (today : ℤ) (properties : List ListingRecord) : List ℤ :=
  properties.filterMap (domOf today)

/-- Line 53: `round(sum(dom_list) / len(dom_list) if dom_list else 0)`. -/
def avg_dom (today : ℤ) (properties : List ListingRecord) : ℤ :=
  pythonRound (if dom_list today properties = [] then 0
    else ((dom_list today properties).sum : ℚ) / ((dom_list today properties).length : ℚ))

/-- Line 56: `max(0, min(100, 100 - (avg_dom - 20) * 1.5))`. -/
def risk_score (today : ℤ) (properties : List ListingRecord) : ℚ :=
  max 0 (min 100 (100 - ((avg_dom today properties : ℚ) - 20) * (3/2)))

/-- Lines 60-64: `beds = p.get('attributes', {}).get('bedrooms', 0)` kept when
`beds and beds > 0` (absent attributes default to `{}`, absent bedrooms default
to `0` which is falsy, `null` is falsy, so only a present value with `b ≠ 0`
and `b > 0` survives). -/
def bedroomsOf (p : ListingRecord) : Option ℚ :=
  let attrs := p.attributes.getD ⟨none⟩
  match attrs.bedrooms with
  | some (some b) => if b ≠ 0 ∧ 0 < b then some b else none
  | _ => none

/-- Lines 59-64: the `bedrooms` list. -/
def bedrooms (properties : List ListingRecord) : List ℚ :=
  properties.filterMap bedroomsOf

/-- Line 66: `round(sum(bedrooms) / len(bedrooms) if bedrooms else 0, 1)`. -/
def avg_beds (properties : List ListingRecord) : ℚ :=
  pythonRound1 (if bedrooms properties = [] then 0
    else (bedrooms properties).sum / ((bedrooms properties).length : ℚ))

/-- Line 69: `max(0, min(100, (avg_beds / 4) * 100))`. -/
def growth_score (properties : List ListingRecord) : ℚ :=
  max 0 (min 100 (avg_beds properties / 4 * 100))

/-- The `summary` dict (lines 72-77). -/
structure Summary where
  total_listings : ℕ
  avg_sale_price : ℤ
  avg_days_on_market : ℤ
  avg_bedrooms : ℚ
deriving DecidableEq, Repr

/-- One scorecard entry (label, `int(...)` value, explanation). -/
structure ScoreEntry where
  label : String
  value : ℤ
  explanation : String
deriving DecidableEq, Repr

/-- The `scorecard` dict (lines 80-91). -/
structure Scorecard where
  liquidity_risk : ScoreEntry
  family_growth_potential : ScoreEntry
deriving DecidableEq, Repr

/-- The analyzer's successful return value (line 93). -/
structure AnalysisResult where
  summary : Summary
  scorecard : Scorecard
  raw_properties : List ListingRecord
deriving DecidableEq, Repr

/-- Lines 32-93 applied to a non-empty `properties` list. -/
def buildResult (today : ℤ) (properties : List ListingRecord) : AnalysisResult :=
  { summary :=
      { total_listings := properties.length
        avg_sale_price := avg_price properties
        avg_days_on_market := avg_dom today properties
        avg_bedrooms := avg_beds properties }
    scorecard :=
      { liquidity_risk :=
          { label := "Liquidity Risk Score"
            value := ratTrunc (risk_score today properties)
            explanation := "Measures how quickly properties are selling (Days on Market). Higher score means lower risk and faster sale times." }
        family_growth_potential :=
          { label := "Family Growth Potential"
            value := ratTrunc (growth_score properties)
            explanation := "A heuristic based on average property size (bedrooms), indicating stable, long-term family demand." } }
    raw_properties := properties.take 5 }

/-- `analyze_property_data` (lines 18-93): `properties = data.get('results', [])`;
`None` when `properties` is empty, otherwise the summary/scorecard/sample dict. -/
def analyze_property_data (today : ℤ) (data : ListingsPayload) : Option AnalysisResult :=
  let properties := data.results.getD []
  if properties = [] then none
  else some (buildResult today properties)

/-! ## The request handler (`analyze_suburb`, src/app.py lines 108-153)

The fetch itself is external I/O; the handler is embedded as a function of the
outcome of `requests.get(...)`, `response.raise_for_status()`,
`response.json()`. A raised exception is characterised by the two tests the
`except` clauses make, in source order: is it a
`requests.exceptions.HTTPError` (and with which response status), and is it a
`requests.exceptions.RequestException`. -/

/-- How an exception raised during fetch/parse is classified by the
`except` clauses of `analyze_suburb`. In the `requests` exception hierarchy
`HTTPError` is itself a `RequestException`, but the `HTTPError` clause comes
first, so the two flags are tested in that order. -/
structure PyException where
  isHTTPError : Bool
  /-- `e.response.status_code`; meaningful only when `isHTTPError`. -/
  httpStatus : ℕ
  isRequestException : Bool
deriving DecidableEq, Repr

/-- Outcome of the `requests.get` + `raise_for_status` + `.json()` sequence:
either a parsed JSON payload, or an exception. -/
inductive FetchOutcome where
  | success (payload : ListingsPayload)
  | exc (e : PyException)
deriving DecidableEq, Repr

/-- A 2xx response whose body is not valid JSON: `response.json()` raises
`requests.exceptions.JSONDecodeError`, which (requests ≥ 2.27) subclasses
`InvalidJSONError` and hence `RequestException`, but not `HTTPError`. -/
def jsonDecodeException : PyException :=
  { isHTTPError := false, httpStatus := 0, isRequestException := true }

/-- A network/connection failure (`requests.exceptions.ConnectionError`,
`Timeout`, ...): a `RequestException` that is not an `HTTPError`. -/
def connectionException : PyException :=
  { isHTTPError := false, httpStatus := 0, isRequestException := true }

/-- A Flask view result as observed by the client: HTTP status plus either
the JSON error body `{"error": message}` or the success body. -/
inductive HttpResponse where
  | errorResp (status : ℕ) (message : String)
  | okResp (suburb : String) (analysis : AnalysisResult)
deriving DecidableEq, Repr

/-- `analyze_suburb` (lines 108-153). `suburb` is
`request.args.get('suburb')`: `none` when the query parameter is missing,
`some s` otherwise; `if not suburb_name` rejects both `None` and `""`. -/
def analyze_suburb (today : ℤ) (suburb : Option String) (fetch : FetchOutcome) :
    HttpResponse :=
  match suburb with
  | none => .errorResp 400 "Suburb name is required."
  | some name =>
    if name = "" then .errorResp 400 "Suburb name is required."
    else
      match fetch with
      | .success raw =>
        match analyze_property_data today raw with
        | none =>
          .errorResp 404
            ("No property data found for " ++ name ++ ". Please try a different suburb.")
        | some r => .okResp name r
      | .exc e =>
        if e.isHTTPError then
          if e.httpStatus = 401 then
            .errorResp 401 "API Authentication Failed. Please check the Bearer token."
          else if e.httpStatus = 404 then
            .errorResp 404 ("Suburb \x27" ++ name ++ "\x27 not found or no data available.")
          else
            .errorResp e.httpStatus ("An API error occurred: HTTP " ++ toString e.httpStatus)
        else if e.isRequestException then
          .errorResp 503 "Could not connect to the external Microburbs API."
        else
          .errorResp 500 "An unexpected server error occurred during analysis."

/-! ## Spec-side definitions

Written from the specification's own wording (§4.2), to be compared with the
source embedding above. -/

/-- Spec §4.2 step 2, per record: the `price` value when present and not null. -/
def specPriceOf (p : ListingRecord) : Option ℚ := p.price.bind id

/-- Spec §4.2 step 2: "collect `price` from every record where `price` is
present and not null". -/
def specPrices (properties : List ListingRecord) : List ℚ :=
  properties.filterMap specPriceOf

/-- Spec §4.2 step 2: "average = sum / count, rounded to nearest integer
(0 if no values present)". -/
def specAvgPrice (properties : List ListingRecord) : ℤ :=
  if specPrices properties = [] then 0
  else pythonRound ((specPrices properties).sum / ((specPrices properties).length : ℚ))

/-- Spec §4.2 step 3, per record: `(today − listing_date).days` when
`listing_date` is present and parseable. -/
def specDomOf (today : ℤ) (p : ListingRecord) : Option ℤ :=
  (p.listing_date.bind parseDate).map (fun d => today - d)

/-- Spec §4.2 step 3: "for each record with a parseable `listing_date`
(`YYYY-MM-DD`), compute `(today − listing_date).days`". -/
def specDoms (today : ℤ) (properties : List ListingRecord) : List ℤ :=
  properties.filterMap (specDomOf today)

/-- Spec §4.2 step 3: "Average rounded to nearest integer (0 if none)". -/
def specAvgDom (today : ℤ) (properties : List ListingRecord) : ℤ :=
  if specDoms today properties = [] then 0
  else pythonRound (((specDoms today properties).sum : ℚ) / ((specDoms today properties).length : ℚ))

/-- Spec §4.2 step 4: "`clamp(100 − (avg_dom − 20) × 1.5, 0, 100)`, truncated
to integer". -/
def specLiquidity (today : ℤ) (properties : List ListingRecord) : ℤ :=
  ratTrunc (clamp (100 - ((specAvgDom today properties : ℚ) - 20) * (3/2)) 0 100)

/-- Spec §4.2 step 5, per record: `attributes.bedrooms` when present and
strictly greater than 0. -/
def specBedOf (p : ListingRecord) : Option ℚ :=
  match p.attributes with
  | some a =>
    match a.bedrooms with
    | some (some b) => if 0 < b then some b else none
    | _ => none
  | none => none

/-- Spec §4.2 step 5: "read `attributes.bedrooms`; include only values that
are present and strictly greater than 0". -/
def specBeds (properties : List ListingRecord) : List ℚ :=
  properties.filterMap specBedOf

/-- Spec §4.2 step 5: "Average rounded to 1 decimal (0 if none)". -/
def specAvgBeds (properties : List ListingRecord) : ℚ :=
  if specBeds properties = [] then 0
  else pythonRound1 ((specBeds properties).sum / ((specBeds properties).length : ℚ))

/-- Spec §4.2 step 6: "`clamp((avg_bedrooms / 4) × 100, 0, 100)`, truncated
to integer". -/
def specGrowth (properties : List ListingRecord) : ℤ :=
  ratTrunc (clamp (specAvgBeds properties / 4 * 100) 0 100)

/-! ## JSON-level model: the analyzer with its error paths

`ListingRecord` covers only the well-typed subset of inputs. The source,
however, raises on some malformed records instead of excluding them:
a record `{"attributes": null}` makes `p.get('attributes', {})` (line 61)
return `None` — the default applies only to a missing key — and
`None.get('bedrooms', 0)` (line 62) raises `AttributeError`; a present
non-numeric `price` reaches `sum(sale_prices)` (line 36) and raises
`TypeError`; a present truthy non-numeric `bedrooms` raises `TypeError`
at `beds > 0` (line 63). Each escapes `analyze_property_data` and is
caught by the handler's `except Exception` (HTTP 500). The JSON-level
model below represents these cases and the raising behaviour. -/

/-- A JSON value in a field position that may hold any type. `str` stands
in for any present non-null, non-numeric value (`bool`, whose Python
arithmetic differs, is not modelled; no claim involves it). -/
inductive JsonVal where
  | null
  | num (q : ℚ)
  | str (s : String)
deriving DecidableEq, Repr

/-- The exception an analyzer run can raise. -/
inductive PyError where
  | typeError
  | attributeError
deriving DecidableEq, Repr

/-- `attributes` object at the JSON level: `bedrooms` absent or any value. -/
structure AttrsJ where
  bedrooms : Option JsonVal
deriving DecidableEq, Repr

/-- A listing record at the JSON level: `price` absent or any value,
`attributes` absent (`none`), present `null` (`some none`), or an object
(`some (some a)`). `listing_date` stays `Option String`: a present truthy
non-string would raise `TypeError` inside the `try` of lines 46-51, which
the bare `except` swallows, so it behaves exactly like an unparseable
string and needs no separate representation. -/
structure RecordJ where
  price : Option JsonVal
  listing_date : Option String
  attributes : Option (Option AttrsJ)
deriving DecidableEq, Repr

/-- The upstream body at the JSON level (same `results` restriction as
`ListingsPayload`). -/
structure PayloadJ where
  results : Option (List RecordJ)
deriving DecidableEq, Repr

/-- Line 35 at the JSON level: the comprehension itself never raises, it
collects every present, non-`None` price value whatever its type. -/
def priceValJ (p : RecordJ) : Option JsonVal :=
  match p.price with
  | some .null => none
  | some v => some v
  | none => none

/-- Line 35: the collected `sale_prices` list at the JSON level. -/
def sale_pricesJ (properties : List RecordJ) : List JsonVal :=
  properties.filterMap priceValJ

/-- Line 36, `sum(sale_prices)`: starts from `0` and raises `TypeError` at
the first value that is not a number. -/
def sumPricesJ : List JsonVal → Except PyError ℚ
  | [] => .ok 0
  | .num q :: rest => do
    let s ← sumPricesJ rest
    .ok (q + s)
  | .str _ :: _ => .error .typeError
  | .null :: _ => .error .typeError

/-- Lines 44-51 at the JSON level (identical to `domOf`). -/
def domOfJ (today : ℤ) (p : RecordJ) : Option ℤ :=
  match p.listing_date with
  | none => none
  | some s => if s = "" then none else (parseDate s).map (fun d => today - d)

/-- Lines 42-51 at the JSON level. -/
def dom_listJ (today : ℤ) (properties : List RecordJ) : List ℤ :=
  properties.filterMap (domOfJ today)

/-- Lines 59-64, the bedrooms loop at the JSON level, processing records in
order: a present-`null` `attributes` raises `AttributeError` at line 62
(`None.get`); an absent `attributes` defaults to `{}` and an absent or
`null` or falsy (`0`, `""`) `bedrooms` is skipped; a truthy non-numeric
`bedrooms` raises `TypeError` at `beds > 0`; a numeric one is collected
when `beds and beds > 0`. -/
def bedroomsJ : List RecordJ → Except PyError (List ℚ)
  | [] => .ok []
  | p :: rest =>
    match p.attributes with
    | some none => .error .attributeError
    | none => bedroomsJ rest
    | some (some a) =>
      match a.bedrooms with
      | none => bedroomsJ rest
      | some .null => bedroomsJ rest
      | some (.str s) => if s = "" then bedroomsJ rest else .error .typeError
      | some (.num b) =>
        if b ≠ 0 ∧ 0 < b then do
          let bs ← bedroomsJ rest
          .ok (b :: bs)
        else bedroomsJ rest

/-- The analyzer's successful return value at the JSON level. -/
structure AnalysisResultJ where
  summary : Summary
  scorecard : Scorecard
  raw_properties : List RecordJ
deriving DecidableEq, Repr

/-- `analyze_property_data` at the JSON level: `.ok none` mirrors the
`return None` for empty `results`, `.error e` an escaping exception. The
price `TypeError` (line 36) precedes the bedrooms-loop errors (lines
59-64), and the conditional at line 36 evaluates `sum` only when
`sale_prices` is non-empty, exactly as in the source. -/
def analyze_property_dataJ (today : ℤ) (data : PayloadJ) :
    Except PyError (Option AnalysisResultJ) :=
  let properties := data.results.getD []
  if properties = [] then .ok none
  else do
    let priceVals := sale_pricesJ properties
    let avg_priceV ←
      if priceVals = [] then pure (pythonRound 0)
      else do
        let s ← sumPricesJ priceVals
        pure (pythonRound (s / (priceVals.length : ℚ)))
    let avg_domV := pythonRound (if dom_listJ today properties = [] then 0
      else ((dom_listJ today properties).sum : ℚ) / ((dom_listJ today properties).length : ℚ))
    let riskV : ℚ := max 0 (min 100 (100 - ((avg_domV : ℚ) - 20) * (3/2)))
    let bs ← bedroomsJ properties
    let avg_bedsV := pythonRound1 (if bs = [] then 0 else bs.sum / ((bs.length : ℚ)))
    let growthV : ℚ := max 0 (min 100 (avg_bedsV / 4 * 100))
    pure (some
      { summary :=
          { total_listings := properties.length
            avg_sale_price := avg_priceV
            avg_days_on_market := avg_domV
            avg_bedrooms := avg_bedsV }
        scorecard :=
          { liquidity_risk :=
              { label := "Liquidity Risk Score"
                value := ratTrunc riskV
                explanation := "Measures how quickly properties are selling (Days on Market). Higher score means lower risk and faster sale times." }
            family_growth_potential :=
              { label := "Family Growth Potential"
                value := ratTrunc growthV
                explanation := "A heuristic based on average property size (bedrooms), indicating stable, long-term family demand." } }
        raw_properties := properties.take 5 })

/-- The result the analyzer produces when every aggregate list is empty:
all averages 0, risk score `int(clamp(100-(0-20)*1.5)) = 100`, growth
score 0, the first five records as sample. -/
def zeroResultJ (properties : List RecordJ) : AnalysisResultJ :=
  { summary :=
      { total_listings := properties.length
        avg_sale_price := 0
        avg_days_on_market := 0
        avg_bedrooms := 0 }
    scorecard :=
      { liquidity_risk :=
          { label := "Liquidity Risk Score"
            value := 100
            explanation := "Measures how quickly properties are selling (Days on Market). Higher score means lower risk and faster sale times." }
        family_growth_potential :=
          { label := "Family Growth Potential"
            value := 0
            explanation := "A heuristic based on average property size (bedrooms), indicating stable, long-term family demand." } }
    raw_properties := properties.take 5 }

/-- Inclusion of a well-typed optional-number field into the JSON level. -/
def toJVal : Option (Option ℚ) → Option JsonVal
  | none => none
  | some none => some .null
  | some (some q) => some (.num q)

/-- Inclusion of a well-typed record into the JSON level. -/
def toJ (p : ListingRecord) : RecordJ :=
  { price := toJVal p.price
    listing_date := p.listing_date
    attributes := p.attributes.map (fun a => some ⟨toJVal a.bedrooms⟩) }

/-- Inclusion of a well-typed analysis result into the JSON level. -/
def toJRes (r : AnalysisResult) : AnalysisResultJ :=
  { summary := r.summary, scorecard := r.scorecard
    raw_properties := r.raw_properties.map toJ }

/-! ## Predicates and concrete data used in the theorems -/

/-- The record's `price` is absent or malformed in the tolerated sense:
absent or `null`. (A present non-numeric price is NOT tolerated: it raises
`TypeError` at line 36.) -/
def noPriceValJ (p : RecordJ) : Bool :=
  match p.price with
  | none => true
  | some .null => true
  | some _ => false

/-- The record's `listing_date` is absent or malformed: absent or
unparseable (the empty string parses as nothing); always tolerated. -/
def noDateValJ (p : RecordJ) : Bool :=
  (p.listing_date.bind parseDate).isNone

/-- The record's `attributes.bedrooms` is absent or malformed in the
tolerated sense: `attributes` absent, or an object whose `bedrooms` is
absent, `null`, the falsy empty string, or numeric but not strictly
positive. (A present-`null` `attributes` raises `AttributeError` at line
62 and a truthy non-numeric `bedrooms` raises `TypeError` at line 63:
neither is tolerated.) -/
def noBedsValJ (p : RecordJ) : Bool :=
  match p.attributes with
  | none => true
  | some none => false
  | some (some a) =>
    match a.bedrooms with
    | none => true
    | some .null => true
    | some (.str s) => s == ""
    | some (.num b) => decide (b ≤ 0)

/-- Concrete record: full price, parseable date (2025-10-02), 3 bedrooms. -/
def wRec1 : ListingRecord :=
  { price := some (some 500000), listing_date := some "2025-10-02",
    attributes := some { bedrooms := some (some 3) } }

/-- Concrete record: a literal price of 0, no date, no attributes. -/
def wRec0 : ListingRecord :=
  { price := some (some 0), listing_date := none, attributes := none }

/-- Concrete record: `null` price, unparseable date, `null` bedrooms. -/
def wRecN : ListingRecord :=
  { price := some none, listing_date := some "bad",
    attributes := some { bedrooms := some none } }

/-- Concrete payload with the three records above. -/
def wData : ListingsPayload := ⟨some [wRec1, wRec0, wRecN]⟩

/-- Concrete "today": 2025-10-12 as a day number. -/
def wToday : ℤ := 20373

/-- The analyzer's output on `wData` at `wToday`: prices [500000, 0] average
to 250000, the single parsed date gives 10 days on market (risk score 100),
the single bedroom value 3 gives average 3.0 (growth score 75). -/
def wRes : AnalysisResult :=
  { summary :=
      { total_listings := 3, avg_sale_price := 250000,
        avg_days_on_market := 10, avg_bedrooms := 3 }
    scorecard :=
      { liquidity_risk :=
          { label := "Liquidity Risk Score", value := 100,
            explanation := "Measures how quickly properties are selling (Days on Market). Higher score means lower risk and faster sale times." }
        family_growth_potential :=
          { label := "Family Growth Potential", value := 75,
            explanation := "A heuristic based on average property size (bedrooms), indicating stable, long-term family demand." } }
    raw_properties := [wRec1, wRec0, wRecN] }

/-- Concrete record list with every value absent or tolerated-malformed:
all keys absent; `null` price, unparseable date and `null` bedrooms; a
non-positive bedroom count; an empty-string (falsy) bedrooms value. -/
def wEmptyPropsJ : List RecordJ :=
  [{ price := none, listing_date := none, attributes := none },
   { price := some .null, listing_date := some "bad",
     attributes := some (some { bedrooms := some .null }) },
   { price := none, listing_date := none,
     attributes := some (some { bedrooms := some (.num (-2)) }) },
   { price := none, listing_date := none,
     attributes := some (some { bedrooms := some (.str "") }) }]

/-- Concrete record `{"attributes": null}`: it lacks a price, a listing
date and a bedrooms value, yet line 62 raises `AttributeError` on it. -/
def cRecNullAttrs : RecordJ :=
  { price := none, listing_date := none, attributes := some none }

/-- Concrete record with a present non-numeric price, which line 36
raises `TypeError` on instead of excluding. -/
def cRecStrPrice : RecordJ :=
  { price := some (.str "N/A"), listing_date := none, attributes := none }

/-- An exception that is neither an `HTTPError` nor a `RequestException`
(e.g. an `AttributeError` raised while analyzing an unexpected payload
shape). -/
def wOtherException : PyException :=
  { isHTTPError := false, httpStatus := 0, isRequestException := false }

/-! ## Bridging lemmas: the source embedding equals the spec-side functions -/

theorem pythonRound_zero : pythonRound 0 = 0 := by
  norm_num [pythonRound]

theorem pythonRound1_zero : pythonRound1 0 = 0 := by
  norm_num [pythonRound1, pythonRound_zero]

/-- The analyzer succeeds exactly on a non-empty `results` list, and then
returns `buildResult`. -/
theorem analyze_some_iff (today : ℤ) (data : ListingsPayload) (r : AnalysisResult) :
    analyze_property_data today data = some r ↔
      data.results.getD [] ≠ [] ∧ r = buildResult today (data.results.getD []) := by
  unfold analyze_property_data
  by_cases h : data.results.getD [] = []
  · simp [h]
  · simp [h, eq_comm]

theorem priceOf_eq_spec (p : ListingRecord) : priceOf p = specPriceOf p := by
  rcases p with ⟨pr, ld, at_⟩
  rcases pr with _ | (_ | q) <;> rfl

theorem sale_prices_eq_spec (properties : List ListingRecord) :
    sale_prices properties = specPrices properties := by
  unfold sale_prices specPrices
  congr 1
  funext p
  exact priceOf_eq_spec p

theorem avg_price_eq_spec (properties : List ListingRecord) :
    avg_price properties = specAvgPrice properties := by
  unfold avg_price specAvgPrice
  rw [sale_prices_eq_spec]
  by_cases h : specPrices properties = []
  · simp [h, pythonRound_zero]
  · simp [h]

/-- The empty string (falsy in Python, hence skipped before `strptime`) does
not parse as a date either. -/
theorem parseDate_empty : parseDate "" = none := by decide

theorem domOf_eq_spec (today : ℤ) (p : ListingRecord) :
    domOf today p = specDomOf today p := by
  rcases p with ⟨pr, ld, at_⟩
  rcases ld with _ | s
  · rfl
  · show (if s = "" then none else (parseDate s).map (fun d => today - d)) = _
    by_cases hs : s = ""
    · subst hs
      simp [specDomOf, parseDate_empty]
    · rw [if_neg hs]
      rfl

theorem dom_list_eq_spec (today : ℤ) (properties : List ListingRecord) :
    dom_list today properties = specDoms today properties := by
  unfold dom_list specDoms
  congr 1
  funext p
  exact domOf_eq_spec today p

theorem avg_dom_eq_spec (today : ℤ) (properties : List ListingRecord) :
    avg_dom today properties = specAvgDom today properties := by
  unfold avg_dom specAvgDom
  rw [dom_list_eq_spec]
  by_cases h : specDoms today properties = []
  · simp [h, pythonRound_zero]
  · simp [h]

theorem bedroomsOf_eq_spec (p : ListingRecord) : bedroomsOf p = specBedOf p := by
  rcases p with ⟨pr, ld, at_⟩
  rcases at_ with _ | a
  · rfl
  · rcases a with ⟨bd⟩
    rcases bd with _ | (_ | b)
    · rfl
    · rfl
    · show (if b ≠ 0 ∧ 0 < b then some b else none) = (if 0 < b then some b else none)
      by_cases hb : 0 < b
      · rw [if_pos ⟨ne_of_gt hb, hb⟩, if_pos hb]
      · rw [if_neg (fun hc => hb hc.2), if_neg hb]

theorem bedrooms_eq_spec (properties : List ListingRecord) :
    bedrooms properties = specBeds properties := by
  unfold bedrooms specBeds
  congr 1
  funext p
  exact bedroomsOf_eq_spec p

theorem avg_beds_eq_spec (properties : List ListingRecord) :
    avg_beds properties = specAvgBeds properties := by
  unfold avg_beds specAvgBeds
  rw [bedrooms_eq_spec]
  by_cases h : specBeds properties = []
  · simp [h, pythonRound1_zero]
  · simp [h]

/-- Truncating the clamp of any rational to `[0, 100]` lands in `[0, 100]`. -/
theorem ratTrunc_max_min_bounds (q : ℚ) :
    0 ≤ ratTrunc (max 0 (min 100 q)) ∧ ratTrunc (max 0 (min 100 q)) ≤ 100 := by
  have h0 : (0 : ℚ) ≤ max 0 (min 100 q) := le_max_left _ _
  have h1 : max 0 (min 100 q) ≤ 100 := max_le (by norm_num) (min_le_left _ _)
  rw [ratTrunc, if_pos h0]
  constructor
  · exact Int.le_floor.mpr (by exact_mod_cast h0)
  · calc ⌊max 0 (min 100 q)⌋ ≤ ⌊(100 : ℚ)⌋ := Int.floor_le_floor h1
      _ = 100 := by norm_num

/-! ## Evaluation lemmas for the concrete data -/

theorem pythonRound_intCast (n : ℤ) : pythonRound (n : ℚ) = n := by
  unfold pythonRound
  rw [Int.floor_intCast]
  norm_num

theorem ratTrunc_intCast (n : ℤ) : ratTrunc (n : ℚ) = n := by
  unfold ratTrunc
  split <;> simp

theorem pythonRound1_intCast (n : ℤ) : pythonRound1 (n : ℚ) = n := by
  unfold pythonRound1
  rw [show ((n : ℚ) * 10) = ((n * 10 : ℤ) : ℚ) by push_cast; ring, pythonRound_intCast]
  push_cast
  field_simp

theorem parseDate_w1 : parseDate "2025-10-02" = some 20363 := by decide

theorem parseDate_bad : parseDate "bad" = none := by decide

theorem wSalePrices : sale_prices [wRec1, wRec0, wRecN] = [500000, 0] := by
  simp [sale_prices, priceOf, wRec1, wRec0, wRecN]

theorem wAvgPrice : avg_price [wRec1, wRec0, wRecN] = 250000 := by
  rw [avg_price, wSalePrices, if_neg (List.cons_ne_nil _ _)]
  norm_num
  exact_mod_cast pythonRound_intCast 250000

theorem wDomList : dom_list wToday [wRec1, wRec0, wRecN] = [10] := by
  simp [dom_list, domOf, wToday, wRec1, wRec0, wRecN, parseDate_w1, parseDate_bad]

theorem wAvgDom : avg_dom wToday [wRec1, wRec0, wRecN] = 10 := by
  rw [avg_dom, wDomList, if_neg (List.cons_ne_nil _ _)]
  norm_num
  exact_mod_cast pythonRound_intCast 10

theorem wBedsList : bedrooms [wRec1, wRec0, wRecN] = [3] := by
  simp [bedrooms, bedroomsOf, wRec1, wRec0, wRecN]

theorem wAvgBeds : avg_beds [wRec1, wRec0, wRecN] = 3 := by
  rw [avg_beds, wBedsList, if_neg (List.cons_ne_nil _ _)]
  norm_num
  exact_mod_cast pythonRound1_intCast 3

theorem wRiskVal : ratTrunc (risk_score wToday [wRec1, wRec0, wRecN]) = 100 := by
  rw [risk_score, wAvgDom]
  rw [show (max 0 (min 100 (100 - (((10 : ℤ) : ℚ) - 20) * (3 / 2))) : ℚ) = ((100 : ℤ) : ℚ) by
    norm_num [min_def, max_def]]
  exact ratTrunc_intCast 100

theorem wGrowthVal : ratTrunc (growth_score [wRec1, wRec0, wRecN]) = 75 := by
  rw [growth_score, wAvgBeds]
  rw [show (max 0 (min 100 ((3 : ℚ) / 4 * 100)) : ℚ) = ((75 : ℤ) : ℚ) by
    norm_num [min_def, max_def]]
  exact ratTrunc_intCast 75

/-- The analyzer evaluated at the concrete payload. -/
theorem wAnalyze : analyze_property_data wToday wData = some wRes := by
  rw [show analyze_property_data wToday wData = some (buildResult wToday [wRec1, wRec0, wRecN]) by
    simp [analyze_property_data, wData]]
  unfold buildResult wRes
  simp [wAvgPrice, wAvgDom, wAvgBeds, wRiskVal, wGrowthVal, List.take]

/-! ## Exclusion lemmas: tolerated-malformed records contribute nothing -/

theorem priceValJ_eq_none (p : RecordJ) (h : noPriceValJ p = true) :
    priceValJ p = none := by
  rcases p with ⟨pr, ld, at_⟩
  rcases pr with _ | (_ | q | s) <;> simp_all [priceValJ, noPriceValJ]

theorem domOfJ_eq_none (today : ℤ) (p : RecordJ) (h : noDateValJ p = true) :
    domOfJ today p = none := by
  rcases p with ⟨pr, ld, at_⟩
  rcases ld with _ | s
  · rfl
  · have h2 : parseDate s = none := by simpa [noDateValJ] using h
    simp [domOfJ, h2]

theorem bedroomsJ_cons_skip (p : RecordJ) (l : List RecordJ)
    (h : noBedsValJ p = true) : bedroomsJ (p :: l) = bedroomsJ l := by
  rcases p with ⟨pr, ld, at_⟩
  rcases at_ with _ | (_ | a)
  · rfl
  · simp [noBedsValJ] at h
  · rcases a with ⟨bd⟩
    rcases bd with _ | (_ | q | s)
    · rfl
    · rfl
    · have hq : ¬(q ≠ 0 ∧ 0 < q) := by
        rintro ⟨-, hlt⟩
        simp only [noBedsValJ, decide_eq_true_eq] at h
        exact absurd hlt (not_lt.mpr h)
      simp [bedroomsJ, hq]
    · have hs : s = "" := by simpa [noBedsValJ] using h
      simp [bedroomsJ, hs]

theorem sale_pricesJ_eq_nil (props : List RecordJ)
    (h : ∀ p ∈ props, noPriceValJ p = true) : sale_pricesJ props = [] := by
  induction props with
  | nil => rfl
  | cons p l ih =>
    rw [sale_pricesJ, List.filterMap_cons, priceValJ_eq_none p (h p (by simp))]
    exact ih (fun q hq => h q (by simp [hq]))

theorem dom_listJ_eq_nil (today : ℤ) (props : List RecordJ)
    (h : ∀ p ∈ props, noDateValJ p = true) : dom_listJ today props = [] := by
  induction props with
  | nil => rfl
  | cons p l ih =>
    rw [dom_listJ, List.filterMap_cons, domOfJ_eq_none today p (h p (by simp))]
    exact ih (fun q hq => h q (by simp [hq]))

theorem bedroomsJ_eq_ok_nil (props : List RecordJ)
    (h : ∀ p ∈ props, noBedsValJ p = true) : bedroomsJ props = .ok [] := by
  induction props with
  | nil => rfl
  | cons p l ih =>
    rw [bedroomsJ_cons_skip p l (h p (by simp))]
    exact ih (fun q hq => h q (by simp [hq]))

/-! ## The JSON-level analyzer conservatively extends the well-typed one

On the image of the well-typed records, `analyze_property_dataJ` raises
nothing and agrees with `analyze_property_data`, so the claims proved over
the well-typed model describe the same behaviour the JSON-level model
exhibits there. -/

theorem priceValJ_toJ (p : ListingRecord) :
    priceValJ (toJ p) = (priceOf p).map .num := by
  rcases p with ⟨pr, ld, at_⟩
  rcases pr with _ | (_ | q) <;> rfl

theorem sale_pricesJ_toJ (l : List ListingRecord) :
    sale_pricesJ (l.map toJ) = (sale_prices l).map .num := by
  induction l with
  | nil => rfl
  | cons p l ih =>
    simp only [List.map_cons, sale_pricesJ, sale_prices, List.filterMap_cons,
      priceValJ_toJ] at *
    rcases hp : priceOf p with _ | q <;> simp [hp, ih]

theorem sumPricesJ_map_num (xs : List ℚ) : sumPricesJ (xs.map .num) = .ok xs.sum := by
  induction xs with
  | nil => rfl
  | cons q l ih =>
    simp [sumPricesJ, ih, List.sum_cons]
    rfl

theorem domOfJ_toJ (today : ℤ) (p : ListingRecord) :
    domOfJ today (toJ p) = domOf today p := by
  rcases p with ⟨pr, ld, at_⟩
  rcases ld with _ | s <;> rfl

theorem dom_listJ_toJ (today : ℤ) (l : List ListingRecord) :
    dom_listJ today (l.map toJ) = dom_list today l := by
  induction l with
  | nil => rfl
  | cons p l ih =>
    simp only [List.map_cons, dom_listJ, dom_list, List.filterMap_cons,
      domOfJ_toJ] at *
    rcases hd : domOf today p with _ | d <;> simp [hd, ih]

theorem bedroomsJ_toJ (l : List ListingRecord) :
    bedroomsJ (l.map toJ) = .ok (bedrooms l) := by
  induction l with
  | nil => rfl
  | cons p l ih =>
    rcases p with ⟨pr, ld, at_⟩
    rcases at_ with _ | a
    · simpa [bedroomsJ, toJ, bedrooms, List.filterMap_cons, bedroomsOf] using ih
    · rcases a with ⟨bd⟩
      rcases bd with _ | (_ | b)
      · simpa [bedroomsJ, toJ, toJVal, bedrooms, List.filterMap_cons, bedroomsOf] using ih
      · simpa [bedroomsJ, toJ, toJVal, bedrooms, List.filterMap_cons, bedroomsOf] using ih
      · by_cases hb : b ≠ 0 ∧ 0 < b
        · simp [bedroomsJ, toJ, toJVal, hb, ih, bedrooms, List.filterMap_cons, bedroomsOf]
          rfl
        · simp [bedroomsJ, toJ, toJVal, hb, ih, bedrooms, List.filterMap_cons, bedroomsOf]

/-- On well-typed payloads the JSON-level analyzer raises nothing and
computes exactly what `analyze_property_data` computes. -/
theorem analyzeJ_extends (today : ℤ) (data : ListingsPayload) :
    analyze_property_dataJ today ⟨data.results.map (List.map toJ)⟩ =
      .ok ((analyze_property_data today data).map toJRes) := by
  rcases data with ⟨res⟩
  rcases res with _ | l
  · rfl
  · by_cases hl : l = []
    · subst hl; rfl
    · have hmapne : l.map toJ ≠ [] := by simpa using hl
      by_cases hsp : sale_prices l = []
      · simp [analyze_property_dataJ, analyze_property_data, hl, hmapne, hsp,
          buildResult, toJRes, sale_pricesJ_toJ, dom_listJ_toJ, bedroomsJ_toJ,
          sumPricesJ_map_num, avg_price, avg_dom, avg_beds, risk_score,
          growth_score, List.map_take]
      · simp [analyze_property_dataJ, analyze_property_data, hl, hmapne, hsp,
          buildResult, toJRes, sale_pricesJ_toJ, dom_listJ_toJ, bedroomsJ_toJ,
          sumPricesJ_map_num, avg_price, avg_dom, avg_beds, risk_score,
          growth_score, List.map_take]
        rfl

/-! ## The claims -/

/-- C1: for every input payload whose `results` sequence is non-empty, the
returned scorecard's `liquidity_risk` value and `family_growth_potential`
value are both integers (type `ℤ` by construction of `int(...)`) in the
closed interval `[0, 100]`. -/
theorem analyzer_scores_within_bounds (today : ℤ) (data : ListingsPayload)
    (r : AnalysisResult) (h : analyze_property_data today data = some r) :
    (0 ≤ r.scorecard.liquidity_risk.value ∧ r.scorecard.liquidity_risk.value ≤ 100) ∧
    (0 ≤ r.scorecard.family_growth_potential.value ∧
      r.scorecard.family_growth_potential.value ≤ 100) := by
  obtain ⟨-, rfl⟩ := (analyze_some_iff today data r).mp h
  exact ⟨ratTrunc_max_min_bounds _, ratTrunc_max_min_bounds _⟩

theorem analyzer_scores_within_bounds_witness :
    analyze_property_data wToday wData = some wRes ∧
    ((0 ≤ wRes.scorecard.liquidity_risk.value ∧ wRes.scorecard.liquidity_risk.value ≤ 100) ∧
      (0 ≤ wRes.scorecard.family_growth_potential.value ∧
        wRes.scorecard.family_growth_potential.value ≤ 100)) :=
  ⟨wAnalyze, analyzer_scores_within_bounds wToday wData wRes wAnalyze⟩

/-- C2: for every non-empty `results` sequence, the liquidity risk score
equals `clamp(100 - (avg_dom - 20) * 1.5, 0, 100)` truncated to an integer,
where `avg_dom` is the average days-on-market rounded to the nearest integer
(0 when no record has a parseable date) — `specLiquidity` states exactly
that formula over `specAvgDom`/`specDoms`, written from the spec. -/
theorem liquidity_score_matches_spec_formula (today : ℤ) (data : ListingsPayload)
    (r : AnalysisResult) (h : analyze_property_data today data = some r) :
    r.scorecard.liquidity_risk.value = specLiquidity today (data.results.getD []) := by
  obtain ⟨-, rfl⟩ := (analyze_some_iff today data r).mp h
  show ratTrunc (risk_score today (data.results.getD [])) = _
  rw [risk_score, specLiquidity, clamp, avg_dom_eq_spec]

theorem liquidity_score_matches_spec_formula_witness :
    analyze_property_data wToday wData = some wRes ∧
    wRes.scorecard.liquidity_risk.value = specLiquidity wToday (wData.results.getD []) :=
  ⟨wAnalyze, liquidity_score_matches_spec_formula wToday wData wRes wAnalyze⟩

/-- C3: for every non-empty `results` sequence, the growth potential score
equals `clamp((avg_bedrooms / 4) * 100, 0, 100)` truncated to an integer,
where `avg_bedrooms` averages exactly the `attributes.bedrooms` values that
are present and strictly greater than 0, rounded to 1 decimal (0 when none
exists) — `specGrowth`/`specAvgBeds` state exactly that, written from the
spec. -/
theorem growth_score_matches_spec_formula (today : ℤ) (data : ListingsPayload)
    (r : AnalysisResult) (h : analyze_property_data today data = some r) :
    r.scorecard.family_growth_potential.value = specGrowth (data.results.getD []) ∧
    r.summary.avg_bedrooms = specAvgBeds (data.results.getD []) := by
  obtain ⟨-, rfl⟩ := (analyze_some_iff today data r).mp h
  constructor
  · show ratTrunc (growth_score (data.results.getD [])) = _
    rw [growth_score, specGrowth, clamp, avg_beds_eq_spec]
  · show avg_beds (data.results.getD []) = _
    exact avg_beds_eq_spec _

theorem growth_score_matches_spec_formula_witness :
    analyze_property_data wToday wData = some wRes ∧
    (wRes.scorecard.family_growth_potential.value = specGrowth (wData.results.getD []) ∧
      wRes.summary.avg_bedrooms = specAvgBeds (wData.results.getD [])) :=
  ⟨wAnalyze, growth_score_matches_spec_formula wToday wData wRes wAnalyze⟩

/-- C4: for every non-empty `results` sequence, the reported average price
equals the average over exactly the records whose `price` is present and
not null, rounded to the nearest integer (Python's round-half-to-even), 0
when no such value exists; moreover a literal price of 0 is included in the
collected values while an absent or null price is excluded. -/
theorem avg_price_matches_spec (today : ℤ) (data : ListingsPayload)
    (r : AnalysisResult) (h : analyze_property_data today data = some r) :
    r.summary.avg_sale_price = specAvgPrice (data.results.getD []) ∧
    (∀ p l, p.price = some (some 0) → sale_prices (p :: l) = 0 :: sale_prices l) ∧
    (∀ p l, p.price = none ∨ p.price = some none →
      sale_prices (p :: l) = sale_prices l) := by
  obtain ⟨-, rfl⟩ := (analyze_some_iff today data r).mp h
  refine ⟨avg_price_eq_spec _, ?_, ?_⟩
  · intro p l hp
    simp [sale_prices, List.filterMap_cons, priceOf, hp]
  · intro p l hp
    have hnone : priceOf p = none := by rcases hp with hp | hp <;> simp [priceOf, hp]
    simp [sale_prices, List.filterMap_cons, hnone]

theorem avg_price_matches_spec_witness :
    analyze_property_data wToday wData = some wRes ∧
    (wRes.summary.avg_sale_price = specAvgPrice (wData.results.getD []) ∧
      (∀ p l, p.price = some (some 0) → sale_prices (p :: l) = 0 :: sale_prices l) ∧
      (∀ p l, p.price = none ∨ p.price = some none →
        sale_prices (p :: l) = sale_prices l)) :=
  ⟨wAnalyze, avg_price_matches_spec wToday wData wRes wAnalyze⟩

/-- C5: for every non-empty `results` sequence, the reported average
days-on-market is computed from exactly the records whose `listing_date`
parses (`specAvgDom`, written from the spec, averages `(today - date).days`
over them and rounds to nearest, 0 when none parses); a record with a
parseable date contributes exactly `today - date`, and a record with a
missing or unparseable date is skipped (no error: the analyzer is total). -/
theorem avg_dom_matches_spec (today : ℤ) (data : ListingsPayload)
    (r : AnalysisResult) (h : analyze_property_data today data = some r) :
    r.summary.avg_days_on_market = specAvgDom today (data.results.getD []) ∧
    (∀ p l s d, p.listing_date = some s → parseDate s = some d →
      dom_list today (p :: l) = (today - d) :: dom_list today l) ∧
    (∀ p l, p.listing_date.bind parseDate = none →
      dom_list today (p :: l) = dom_list today l) := by
  obtain ⟨-, rfl⟩ := (analyze_some_iff today data r).mp h
  refine ⟨avg_dom_eq_spec _ _, ?_, ?_⟩
  · intro p l s d hs hd
    have hs' : s ≠ "" := by
      intro he
      rw [he, parseDate_empty] at hd
      exact Option.noConfusion hd
    have hdome : domOf today p = some (today - d) := by simp [domOf, hs, hs', hd]
    simp [dom_list, List.filterMap_cons, hdome]
  · intro p l hp
    have hdome : domOf today p = none := by
      rcases p with ⟨pr, ld, at_⟩
      rcases ld with _ | s
      · rfl
      · have hp2 : parseDate s = none := by simpa using hp
        simp [domOf, hp2]
    simp [dom_list, List.filterMap_cons, hdome]

theorem avg_dom_matches_spec_witness :
    analyze_property_data wToday wData = some wRes ∧
    (wRes.summary.avg_days_on_market = specAvgDom wToday (wData.results.getD []) ∧
      (∀ p l s d, p.listing_date = some s → parseDate s = some d →
        dom_list wToday (p :: l) = (wToday - d) :: dom_list wToday l) ∧
      (∀ p l, p.listing_date.bind parseDate = none →
        dom_list wToday (p :: l) = dom_list wToday l)) :=
  ⟨wAnalyze, avg_dom_matches_spec wToday wData wRes wAnalyze⟩

/-- C6 counterexample: the claim as stated is false on the code. The record
`{"attributes": null}` lacks a price, a listing date and a bedrooms value,
yet the analyzer raises `AttributeError` (line 62: the `{}` default of
`p.get('attributes', {})` applies only to a missing key) instead of
returning a scorecard; and a record with a present non-numeric `price`
raises `TypeError` at `sum(sale_prices)` (line 36) instead of being
excluded. Both surface as HTTP 500. -/
theorem malformed_values_raise_errors :
    analyze_property_dataJ 0 ⟨some [cRecNullAttrs]⟩ = .error .attributeError ∧
    analyze_property_dataJ 0 ⟨some [cRecStrPrice]⟩ = .error .typeError :=
  ⟨rfl, rfl⟩

/-- C6 (amended): for every non-empty `results` sequence, records whose
field values are absent or malformed in the tolerated sense — `price`
absent or null, `listing_date` absent or unparseable, `attributes.bedrooms`
absent (including absent `attributes`), null, a falsy empty string, or not
strictly positive — are excluded from the aggregate computations rather
than treated as zero or causing an error, and a non-empty sequence of only
such records yields averages of 0 and a scorecard without raising. (A
present-`null` `attributes` or a present non-numeric `price`, by contrast,
raises — see the counterexample.) -/
theorem tolerated_missing_values_excluded_yields_zero (today : ℤ)
    (props : List RecordJ) (hne : props ≠ [])
    (hall : ∀ p ∈ props, noPriceValJ p ∧ noDateValJ p ∧ noBedsValJ p) :
    (∀ p l, noPriceValJ p → sale_pricesJ (p :: l) = sale_pricesJ l) ∧
    (∀ p l, noDateValJ p → dom_listJ today (p :: l) = dom_listJ today l) ∧
    (∀ p l, noBedsValJ p → bedroomsJ (p :: l) = bedroomsJ l) ∧
    ∃ r, analyze_property_dataJ today ⟨some props⟩ = .ok (some r) ∧
      r.summary.avg_sale_price = 0 ∧ r.summary.avg_days_on_market = 0 ∧
      r.summary.avg_bedrooms = 0 := by
  have hsp : sale_pricesJ props = [] :=
    sale_pricesJ_eq_nil props (fun p hp => (hall p hp).1)
  have hdl : dom_listJ today props = [] :=
    dom_listJ_eq_nil today props (fun p hp => (hall p hp).2.1)
  have hbj : bedroomsJ props = .ok [] :=
    bedroomsJ_eq_ok_nil props (fun p hp => (hall p hp).2.2)
  refine ⟨?_, ?_, ?_, ?_⟩
  · intro p l hp
    simp [sale_pricesJ, List.filterMap_cons, priceValJ_eq_none p hp]
  · intro p l hp
    simp [dom_listJ, List.filterMap_cons, domOfJ_eq_none today p hp]
  · intro p l hp
    exact bedroomsJ_cons_skip p l hp
  · refine ⟨zeroResultJ props, ?_, rfl, rfl, rfl⟩
    simp [analyze_property_dataJ, zeroResultJ, hne, hsp, hdl, hbj, pythonRound_zero,
      pythonRound1_zero]
    constructor
    · rw [show (max (0 : ℚ) (min 100 (100 + 20 * (3 / 2))) : ℚ) = ((100 : ℤ) : ℚ) by
        norm_num [min_def, max_def]]
      exact ratTrunc_intCast 100
    · exact_mod_cast ratTrunc_intCast 0

theorem tolerated_missing_values_excluded_yields_zero_witness :
    wEmptyPropsJ ≠ [] ∧
    (∀ p ∈ wEmptyPropsJ, noPriceValJ p ∧ noDateValJ p ∧ noBedsValJ p) ∧
    ((∀ p l, noPriceValJ p → sale_pricesJ (p :: l) = sale_pricesJ l) ∧
      (∀ p l, noDateValJ p → dom_listJ 0 (p :: l) = dom_listJ 0 l) ∧
      (∀ p l, noBedsValJ p → bedroomsJ (p :: l) = bedroomsJ l) ∧
      ∃ r, analyze_property_dataJ 0 ⟨some wEmptyPropsJ⟩ = .ok (some r) ∧
        r.summary.avg_sale_price = 0 ∧ r.summary.avg_days_on_market = 0 ∧
        r.summary.avg_bedrooms = 0) :=
  ⟨by decide, by decide,
    tolerated_missing_values_excluded_yields_zero 0 wEmptyPropsJ (by decide) (by decide)⟩

/-- C7: a payload whose `results` key is absent or maps to the empty list
makes the analyzer return the no-data signal (`none`), and the endpoint then
answers HTTP 404 with the exact error message naming the requested suburb. -/
theorem empty_results_yields_404 (today : ℤ) (data : ListingsPayload) (name : String)
    (hname : name ≠ "") (hres : data.results = none ∨ data.results = some []) :
    analyze_property_data today data = none ∧
    analyze_suburb today (some name) (.success data) =
      .errorResp 404 ("No property data found for " ++ name ++
        ". Please try a different suburb.") := by
  have hd : data.results.getD [] = [] := by rcases hres with h | h <;> simp [h]
  have h1 : analyze_property_data today data = none := by
    simp [analyze_property_data, hd]
  exact ⟨h1, by simp [analyze_suburb, hname, h1]⟩

theorem empty_results_yields_404_witness :
    ("Belmont" : String) ≠ "" ∧
    ((⟨none⟩ : ListingsPayload).results = none ∨
      (⟨none⟩ : ListingsPayload).results = some []) ∧
    (analyze_property_data 0 ⟨none⟩ = none ∧
      analyze_suburb 0 (some "Belmont") (.success ⟨none⟩) =
        .errorResp 404 ("No property data found for " ++ "Belmont" ++
          ". Please try a different suburb.")) :=
  ⟨by decide, Or.inl rfl,
    empty_results_yields_404 0 ⟨none⟩ "Belmont" (by decide) (Or.inl rfl)⟩

/-- C8: for every non-empty `results` sequence of length N, the output's
`raw_properties` equals the first min(5, N) input records, in order and
unmodified (`List.take 5` of the input list itself). -/
theorem raw_properties_first_five (today : ℤ) (data : ListingsPayload)
    (r : AnalysisResult) (h : analyze_property_data today data = some r) :
    r.raw_properties = (data.results.getD []).take 5 ∧
    r.raw_properties.length = min 5 (data.results.getD []).length := by
  obtain ⟨-, rfl⟩ := (analyze_some_iff today data r).mp h
  exact ⟨rfl, List.length_take 5 _⟩

theorem raw_properties_first_five_witness :
    analyze_property_data wToday wData = some wRes ∧
    (wRes.raw_properties = (wData.results.getD []).take 5 ∧
      wRes.raw_properties.length = min 5 (wData.results.getD []).length) :=
  ⟨wAnalyze, raw_properties_first_five wToday wData wRes wAnalyze⟩

/-- C9 counterexample: a 2xx upstream response whose body is not valid JSON
raises `requests.exceptions.JSONDecodeError`, a `RequestException`
(requests ≥ 2.27), so the endpoint answers 503 with the connection-error
body — not 500 as the claim states. -/
theorem json_decode_failure_gives_503_not_500 :
    analyze_suburb 0 (some "Sydney") (.exc jsonDecodeException) =
      .errorResp 503 "Could not connect to the external Microburbs API." ∧
    analyze_suburb 0 (some "Sydney") (.exc jsonDecodeException) ≠
      .errorResp 500 "An unexpected server error occurred during analysis." := by
  decide

/-- C9 (amended): an unexpected failure that is neither an
`HTTPError` nor any other `RequestException` is reported as the internal
error (HTTP 500 with the exact body); a 2xx response with a non-JSON body,
by contrast, raises a `RequestException` and is reported as 503. -/
theorem unclassified_exception_gives_500 (today : ℤ) (name : String)
    (e : PyException) (hname : name ≠ "") (hh : e.isHTTPError = false)
    (hr : e.isRequestException = false) :
    analyze_suburb today (some name) (.exc e) =
      .errorResp 500 "An unexpected server error occurred during analysis." ∧
    analyze_suburb today (some name) (.exc jsonDecodeException) =
      .errorResp 503 "Could not connect to the external Microburbs API." := by
  constructor <;> simp [analyze_suburb, hname, hh, hr, jsonDecodeException]

theorem unclassified_exception_gives_500_witness :
    ("Sydney" : String) ≠ "" ∧ wOtherException.isHTTPError = false ∧
    wOtherException.isRequestException = false ∧
    (analyze_suburb 0 (some "Sydney") (.exc wOtherException) =
        .errorResp 500 "An unexpected server error occurred during analysis." ∧
      analyze_suburb 0 (some "Sydney") (.exc jsonDecodeException) =
        .errorResp 503 "Could not connect to the external Microburbs API.") :=
  ⟨by decide, rfl, rfl,
    unclassified_exception_gives_500 0 "Sydney" wOtherException (by decide) rfl rfl⟩

/-- C10: a request whose `suburb` query parameter is the empty string is
answered exactly like a missing parameter — HTTP 400 with the exact body —
and the response does not depend on any fetch outcome (the handler returns
before the upstream request is made). -/
theorem empty_suburb_param_rejected (today : ℤ) (fetch : FetchOutcome) :
    analyze_suburb today (some "") fetch = .errorResp 400 "Suburb name is required." ∧
    analyze_suburb today (some "") fetch = analyze_suburb today none fetch := by
  constructor <;> rfl
